import Mathlib

/-!
Verification of the WhatsApp intake and claim-based processing pipeline.

The definitions below are a shallow embedding of the TypeScript sources:
  backend/src/services/whatsapp-intake.ts
  backend/src/services/whatsapp-worker.ts
  backend/src/services/property-search.ts  (the extraction client part)
  backend/src/routes/webhooks.ts
  backend/src/models/incoming-message.ts

MongoDB documents are embedded as Lean structures, collections as lists of
documents, and single-document update operations as pure functions on those
lists.  Timestamps are `Int` milliseconds (JS `Date.getTime()`).  External
effects (the OpenAI call, HMAC-SHA256, UUID generation) are parameters of the
functions that use them.
-/

namespace PropertyPipeline

/-! ## JSON values

Webhook payloads are untyped JSON.  `JValue` embeds the JSON data reachable by
the intake normalizer.  Numbers are embedded as `Int`: the only numeric field
the pipeline reads is the WhatsApp `timestamp` (integral seconds).
-/

inductive JValue where
  | jobj (entries : List (String × JValue))
  | jarr (items : List JValue)
  | jstr (text : String)
  | jnum (value : Int)
  | jbool (flag : Bool)
  | jnull

/-- Property access `v.k` on a JSON value: defined only on objects (JS arrays
and primitives have no such named property, yielding `undefined`). -/
def JValue.objGet (v : JValue) (k : String) : Option JValue :=
  match v with
  | .jobj fields => fields.lookup k
  | _ => none

/-- JS `typeof v === 'object' && v !== null`: true for objects and arrays. -/
def JValue.isObjectLike (v : JValue) : Bool :=
  match v with
  | .jobj _ => true
  | .jarr _ => true
  | _ => false

/-- Reads `v.k` as a JS string, `none` when absent or not a string. -/
def JValue.getStr (v : JValue) (k : String) : Option String :=
  match v.objGet k with
  | some (.jstr s) => some s
  | _ => none

/-- Reads `v.k` as an array of values, `none` when absent or not an array
(`Array.isArray` guard in the source). -/
def JValue.getArr (v : JValue) (k : String) : Option (List JValue) :=
  match v.objGet k with
  | some (.jarr xs) => some xs
  | _ => none

/-! ## Incoming message documents (models/incoming-message.ts) -/

inductive IncomingMessageStatus where
  | pending
  | processing
  | processed
  | failed
deriving DecidableEq, Repr

structure MsgProcessing where
  status : IncomingMessageStatus
  attempts : Nat
  claimed_at : Option Int
  started_at : Option Int
  last_attempt_at : Option Int
  last_error : Option String
  worker_batch_id : Option String
  heartbeat_at : Option Int
  processed_at : Option Int
deriving DecidableEq, Repr

structure MsgIngest where
  message_id : Option String
  group_id : Option String
  raw_message_id : Option String
  dedupe_key : Option String
  received_at : Int
  first_seen_at : Int
  last_seen_at : Int
deriving DecidableEq, Repr

/-- One document of the `incoming_messages` collection.  All documents written
by this pipeline have `source = 'whatsapp'`, so the constant `source` field is
left implicit.  `idHex` is the Mongo `_id`; `idIsObjectId` records whether it
is an `ObjectId` (always true for documents read back from the collection). -/
structure IncomingMessageDocument where
  idHex : String
  idIsObjectId : Bool
  ingest : MsgIngest
  text : Option String
  processing : MsgProcessing
  created_at : Int
  updated_at : Int
deriving DecidableEq, Repr

/-! ## Worker: claim eligibility and state transitions (whatsapp-worker.ts) -/

/-- `buildClaimFilter` (whatsapp-worker.ts:37).  A document matches when
`processing.attempts < maxAttempts` and either it is `pending`, or it is
`processing` with `heartbeat_at` strictly before `now - timeoutMs`.  A missing
or null `heartbeat_at` does not match Mongo `$lt` against a date. -/
def claimFilterMatches (now : Int) (maxAttempts : Nat) (timeoutMs : Int)
    (m : IncomingMessageDocument) : Bool :=
  decide (m.processing.attempts < maxAttempts) &&
    (m.processing.status == .pending ||
      (m.processing.status == .processing &&
        match m.processing.heartbeat_at with
        | some h => decide (h < now - timeoutMs)
        | none => false))

/-- The `$set`/`$inc` part of the atomic claim in `claimPendingMessages`
(whatsapp-worker.ts:60): status to `processing`, claim/heartbeat stamps to
`now`, batch id recorded, error cleared, attempts incremented. -/
def applyClaimUpdate (m : IncomingMessageDocument) (now : Int) (batchId : String) :
    IncomingMessageDocument :=
  { m with
    processing := { m.processing with
      status := .processing
      claimed_at := some now
      started_at := some now
      worker_batch_id := some batchId
      heartbeat_at := some now
      last_error := none
      attempts := m.processing.attempts + 1 }
    updated_at := now }

/-- One `findOneAndUpdate` of the claim loop: picks the matching document with
the least `ingest.first_seen_at` (the `sort` option; ties resolved to the
earliest stored document) and replaces it in place with the claimed version.
Returns the pre-update document together with the new collection state. -/
def claimOne (now : Int) (batchId : String) (maxAttempts : Nat) (timeoutMs : Int) :
    List IncomingMessageDocument →
    Option (IncomingMessageDocument × List IncomingMessageDocument)
  | [] => none
  | m :: rest =>
    if claimFilterMatches now maxAttempts timeoutMs m then
      match claimOne now batchId maxAttempts timeoutMs rest with
      | some (b, rest') =>
        if b.ingest.first_seen_at < m.ingest.first_seen_at then
          some (b, m :: rest')
        else
          some (m, applyClaimUpdate m now batchId :: rest)
      | none => some (m, applyClaimUpdate m now batchId :: rest)
    else
      match claimOne now batchId maxAttempts timeoutMs rest with
      | some (b, rest') => some (b, m :: rest')
      | none => none

/-- `claimPendingMessages` (whatsapp-worker.ts:49): claims up to `batchSize`
messages, always against the same `now`, collecting the post-update documents
(`returnDocument: 'after'`).  Returns the claimed documents and the final
collection state. -/
def claimPendingMessages (now : Int) (batchId : String) (maxAttempts : Nat)
    (timeoutMs : Int) :
    Nat → List IncomingMessageDocument →
    List IncomingMessageDocument × List IncomingMessageDocument
  | 0, store => ([], store)
  | fuel + 1, store =>
    match claimOne now batchId maxAttempts timeoutMs store with
    | none => ([], store)
    | some (pre, store') =>
      let (rest, store'') :=
        claimPendingMessages now batchId maxAttempts timeoutMs fuel store'
      (applyClaimUpdate pre now batchId :: rest, store'')

/-- `markMessageProcessed` (whatsapp-worker.ts:332): terminal success.
`attempts` and `claimed_at` are left as written by the claim. -/
def markMessageProcessed (m : IncomingMessageDocument) (batchId : String)
    (now : Int) : IncomingMessageDocument :=
  { m with
    processing := { m.processing with
      status := .processed
      processed_at := some now
      heartbeat_at := none
      worker_batch_id := some batchId
      last_error := none
      last_attempt_at := some now }
    updated_at := now }

/-- `markMessageFailed` (whatsapp-worker.ts:367).  `m` is the claimed document,
so `m.processing.attempts` already includes the current attempt.  Retryable
failures revert to `pending` with claim and heartbeat cleared; otherwise the
status becomes terminal `failed`.  The error text is recorded either way. -/
def markMessageFailed (m : IncomingMessageDocument) (batchId : String)
    (errText : String) (maxAttempts : Nat) (now : Int) : IncomingMessageDocument :=
  let shouldRetry := m.processing.attempts < maxAttempts
  { m with
    processing := { m.processing with
      status := if shouldRetry then .pending else .failed
      last_error := some errText
      worker_batch_id := some batchId
      heartbeat_at := none
      claimed_at := none
      last_attempt_at := some now }
    updated_at := now }

/-! ## Intake normalizer (whatsapp-intake.ts) -/

/-- The shape `parseWebhookPayload` produces per message.  The sender contact
fields are carried as raw JSON (they are stored opaquely and read by no
pipeline logic). -/
structure NormalizedMessage where
  changeId : Option String
  value : JValue
  contactName : Option JValue
  contactPhone : Option JValue
  message : JValue

/-- `c?.wa_id === senderWaId` for one contact entry.  When the sender id is a
string this is string equality on a string `wa_id`; when `message.from` was not
a string (`senderWaId === null`) it only matches a literal JSON null `wa_id`. -/
def waIdMatches (c : JValue) (sender : Option String) : Bool :=
  match c.objGet "wa_id", sender with
  | some (.jstr w), some s => w == s
  | some .jnull, none => true
  | _, _ => false

/-- Resolves the contact record for one message:
`contacts.find((c) => c?.wa_id === senderWaId) ?? contacts[0]`. -/
def resolveContact (contacts : List JValue) (sender : Option String) :
    Option JValue :=
  match contacts.find? (fun c => waIdMatches c sender) with
  | some c => some c
  | none => contacts.head?

/-- Normalizes one raw `messages[]` entry of a change, or skips it.  Mirrors
the guards of the inner loop of `parseWebhookPayload` (whatsapp-intake.ts:62):
non-objects, non-text messages and messages without a string `text.body` are
skipped. -/
def normalizeOneMessage (changeId : Option String) (value : JValue)
    (contacts : List JValue) (msg : JValue) : Option NormalizedMessage :=
  if !msg.isObjectLike then none
  else if msg.getStr "type" ≠ some "text" then none
  else
    match (msg.objGet "text").bind (fun t => t.objGet "body") with
    | some (.jstr _) =>
      let senderWaId := msg.getStr "from"
      let contact := resolveContact contacts senderWaId
      some
        { changeId := changeId
          value := value
          contactName :=
            contact.bind (fun c => (c.objGet "profile").bind (fun p => p.objGet "name"))
          contactPhone :=
            match contact.bind (fun c => c.objGet "wa_id") with
            | some w => some w
            | none => senderWaId.map .jstr
          message := msg }
    | _ => none

/-- `parseWebhookPayload` (whatsapp-intake.ts:41): walks
`entry[].changes[].value.messages[]`, keeping only text messages, and never
fails — any structural mismatch merely contributes no messages. -/
def parseWebhookPayload (payload : JValue) : List NormalizedMessage :=
  match payload.objGet "entry" with
  | some (.jarr entries) =>
    entries.flatMap (fun entry =>
      match entry.objGet "changes" with
      | some (.jarr changes) =>
        changes.flatMap (fun change =>
          match change.objGet "field", change.objGet "value" with
          | some (.jstr f), some v =>
            if f == "messages" && v.isObjectLike then
              let contacts := (v.getArr "contacts").getD []
              let msgs := (v.getArr "messages").getD []
              msgs.filterMap
                (normalizeOneMessage (entry.getStr "id") v contacts)
            else []
          | _, _ => [])
      | _ => [])
  | _ => []

/-- The whitespace characters JS `trim` and `parseInt` skip (the ASCII ones
relevant here). -/
def jsWhitespace (c : Char) : Bool :=
  match c with
  | ' ' => true
  | '\t' => true
  | '\n' => true
  | '\r' => true
  | '\x0b' => true
  | '\x0c' => true
  | _ => false

/-- JS `Number.parseInt(s, 10)`: optional leading whitespace and sign, then the
longest digit run; `NaN` (here `none`) when no digit is found. -/
def jsParseInt (s : String) : Option Int :=
  let chars := s.data.dropWhile jsWhitespace
  let (neg, digitsPart) :=
    match chars with
    | '-' :: rest => (true, rest)
    | '+' :: rest => (false, rest)
    | rest => (false, rest)
  let digits := digitsPart.takeWhile Char.isDigit
  if digits.isEmpty then none
  else
    let n : Nat := digits.foldl (fun acc c => acc * 10 + (c.toNat - '0'.toNat)) 0
    some (if neg then -(n : Int) else (n : Int))

/-- `toIncomingMessageDocument` (whatsapp-intake.ts:91): requires a string
message id; parses the WhatsApp `timestamp` (seconds) into `received_at`
(milliseconds), falling back to `now`; initial processing state is `pending`
with zero attempts.  The Mongo `_id` is assigned by the store on insert and is
irrelevant to every claim, so it is left empty here. -/
def toIncomingMessageDocument (now : Int) (nm : NormalizedMessage) :
    Option IncomingMessageDocument :=
  match nm.message.getStr "id" with
  | none => none
  | some messageId =>
    let timestampSeconds : Option Int :=
      match nm.message.objGet "timestamp" with
      | some (.jstr s) => jsParseInt s
      | some (.jnum n) => some n
      | _ => none
    let receivedAt : Int :=
      match timestampSeconds with
      | some t => t * 1000
      | none => now
    some
      { idHex := ""
        idIsObjectId := true
        ingest :=
          { message_id := some messageId
            group_id := (nm.message.objGet "context").bind (fun c => c.getStr "id")
            raw_message_id := some messageId
            dedupe_key := some messageId
            received_at := receivedAt
            first_seen_at := now
            last_seen_at := now }
        text :=
          some ((((nm.message.objGet "text").bind
            (fun t => t.getStr "body"))).getD "")
        processing :=
          { status := .pending
            attempts := 0
            claimed_at := none
            started_at := none
            last_attempt_at := none
            last_error := none
            worker_batch_id := none
            heartbeat_at := none
            processed_at := none }
        created_at := now
        updated_at := now }

/-! ### The intake upsert and its update document

`storeIncomingWhatsAppMessages` issues, per message, the bulk operation

```
updateOne: filter {'ingest.message_id': id},
           update { $setOnInsert: doc,
                    $set: {'ingest.last_seen_at': now, updated_at: now} },
           upsert: true
```

MongoDB validates every update document: two update operators may not modify
the same path, nor may one modify a prefix of a path the other modifies
("ConflictingUpdateOperators" / "Updating the path 'p' would create a conflict
at 'q'").  The paths of this update document are listed below exactly as the
source builds them, and the conflict check is the documented prefix rule. -/

/-- Top-level fields of the full document placed under `$setOnInsert`
(the fields of `toIncomingMessageDocument`). -/
def intakeSetOnInsertPaths : List (List String) :=
  [["source"], ["ingest"], ["payload"], ["message"], ["sender"],
   ["processing"], ["property_listing_id"], ["created_at"], ["updated_at"]]

/-- The dotted paths placed under `$set` by the intake upsert. -/
def intakeSetPaths : List (List String) :=
  [["ingest", "last_seen_at"], ["updated_at"]]

/-- Two update paths conflict when equal or when one is a proper prefix of the
other (segment-wise). -/
def pathsConflict (p q : List String) : Bool :=
  p.isPrefixOf q || q.isPrefixOf p

/-- Whether the intake update document is rejected by the server-side
conflicting-operators validation. -/
def intakeUpdateHasConflict : Bool :=
  intakeSetOnInsertPaths.any (fun p => intakeSetPaths.any (fun q => pathsConflict p q))

structure PersistResult where
  inserted : Nat
  updated : Nat
  skipped : Nat
deriving DecidableEq, Repr

/-- The per-operation effect the update document asks for, were it accepted:
on a match, refresh `ingest.last_seen_at` and `updated_at` only; on a miss,
insert the `$setOnInsert` document with the `$set` fields applied. -/
def applyIntakeUpsert (store : List IncomingMessageDocument)
    (doc : IncomingMessageDocument) (now : Int) :
    List IncomingMessageDocument × Bool :=
  match store with
  | [] =>
    ([{ doc with
        ingest := { doc.ingest with last_seen_at := now }
        updated_at := now }], true)
  | m :: rest =>
    if m.ingest.message_id = doc.ingest.message_id then
      ({ m with
          ingest := { m.ingest with last_seen_at := now }
          updated_at := now } :: rest, false)
    else
      let r := applyIntakeUpsert rest doc now
      (m :: r.1, r.2)

/-- Folds the intake bulk operations over the collection, counting inserts and
matches (`upsertedCount` / `modifiedCount`). -/
def applyIntakeOps (store : List IncomingMessageDocument)
    (docs : List IncomingMessageDocument) (now : Int) :
    List IncomingMessageDocument × Nat × Nat :=
  match docs with
  | [] => (store, 0, 0)
  | doc :: rest =>
    let step := applyIntakeUpsert store doc now
    let r := applyIntakeOps step.1 rest now
    if step.2 then (r.1, r.2.1 + 1, r.2.2) else (r.1, r.2.1, r.2.2 + 1)

/-- `storeIncomingWhatsAppMessages` (whatsapp-intake.ts:148).  Payloads without
text messages return zero counts without touching the store.  When operations
exist, `bulkWrite` first validates each update document; the conflicting
`$setOnInsert`/`$set` paths make it raise, which the caller observes as a
rejected promise.  The accepted-semantics fold is kept for reference. -/
def storeIncomingWhatsAppMessages (store : List IncomingMessageDocument)
    (payload : JValue) (now : Int) :
    List IncomingMessageDocument × Except String PersistResult :=
  let normalizedMessages := parseWebhookPayload payload
  if normalizedMessages.isEmpty then
    (store, .ok ⟨0, 0, 0⟩)
  else
    let docs := normalizedMessages.filterMap (toIncomingMessageDocument now)
    if docs.isEmpty then
      (store, .ok ⟨0, 0, normalizedMessages.length⟩)
    else if intakeUpdateHasConflict then
      (store, .error "ConflictingUpdateOperators")
    else
      let r := applyIntakeOps store docs now
      (r.1, .ok ⟨r.2.1, r.2.2,
        normalizedMessages.length - r.2.1 - r.2.2⟩)

/-! ## Webhook route (routes/webhooks.ts) -/

/-- One hex digit, or `none` (code points 0-9, a-f, A-F). -/
def hexDigitVal (c : Char) : Option Nat :=
  let n := c.toNat
  if 48 ≤ n ∧ n ≤ 57 then some (n - 48)
  else if 97 ≤ n ∧ n ≤ 102 then some (n - 87)
  else if 65 ≤ n ∧ n ≤ 70 then some (n - 55)
  else none

/-- `Buffer.from(s, 'hex')`: decodes leading complete hex pairs and stops at
the first invalid pair or odd tail. -/
def decodeHexPairs : List Char → List Nat
  | c1 :: c2 :: rest =>
    match hexDigitVal c1, hexDigitVal c2 with
    | some a, some b => (a * 16 + b) :: decodeHexPairs rest
    | _, _ => []
  | _ => []

def bufferFromHex (s : String) : List Nat :=
  decodeHexPairs s.data

/-- JS `String.prototype.startsWith`. -/
def strStartsWith (s p : String) : Bool :=
  p.data.isPrefixOf s.data

/-- JS `String.prototype.substring(n)`. -/
def strSubstringFrom (s : String) (n : Nat) : String :=
  String.mk (s.data.drop n)

/-- `verifySignature` (webhooks.ts:10).  `hmacHex` stands for
`crypto.createHmac('sha256', secret) … digest('hex')` over the raw body; the
byte-wise comparison is `crypto.timingSafeEqual` after the length guard. -/
def verifySignature (hmacHex : String → String)
    (rawBody signatureHeader : Option String) : Bool :=
  match rawBody, signatureHeader with
  | some rb, some sh =>
    if rb = "" || sh = "" then false
    else if !(strStartsWith sh "sha256=") then false
    else
      let provided := strSubstringFrom sh 7
      let digest := hmacHex rb
      let providedBuffer := bufferFromHex provided
      let digestBuffer := bufferFromHex digest
      if providedBuffer.length ≠ digestBuffer.length then false
      else providedBuffer == digestBuffer
  | _, _ => false

structure WebhookResponse where
  status : Nat
  counts : Option PersistResult
deriving DecidableEq, Repr

/-- The `POST /webhooks/whatsapp` handler (webhooks.ts:55): an invalid
signature yields 401 before anything touches the store; otherwise the intake
runs and its counts are returned with 200, while an intake rejection is caught
and mapped to 500. -/
def handleWhatsAppWebhookPost (hmacHex : String → String)
    (store : List IncomingMessageDocument)
    (rawBody signatureHeader : Option String) (body : JValue) (now : Int) :
    List IncomingMessageDocument × WebhookResponse :=
  if !verifySignature hmacHex rawBody signatureHeader then
    (store, ⟨401, none⟩)
  else
    match storeIncomingWhatsAppMessages store body now with
    | (store', .ok r) => (store', ⟨200, some r⟩)
    | (store', .error _) => (store', ⟨500, none⟩)

/-! ## Extraction client (property-search.ts, parser section) -/

def MAX_MESSAGE_LENGTH : Nat := 2400


def jsTrim (s : String) : String :=
  String.mk (((s.data.dropWhile jsWhitespace).reverse.dropWhile jsWhitespace).reverse)

structure SanitizedMessage where
  content : String
  truncated : Bool
deriving DecidableEq, Repr

/-- `sanitizeMessage` (property-search.ts:533): trim, then hard-truncate to
`MAX_MESSAGE_LENGTH` characters, reporting whether truncation happened. -/
def sanitizeMessage (text : String) : SanitizedMessage :=
  if text = "" then ⟨"", false⟩
  else
    let trimmed := jsTrim text
    if trimmed.length ≤ MAX_MESSAGE_LENGTH then ⟨trimmed, false⟩
    else ⟨String.mk (trimmed.data.take MAX_MESSAGE_LENGTH), true⟩

/-- `buildUserPrompt` (property-search.ts:544). -/
def buildUserPrompt (messageText : String) (messageId : String)
    (maxListings : Option Nat) : String :=
  let maxLine :=
    match maxListings with
    | some n => ["Maximum listings to extract: " ++ toString n]
    | none => []
  String.intercalate "\n"
    (["Message ID: " ++ messageId] ++ maxLine ++
      ["Extract as many property listings as the text clearly contains.",
       "Return empty arrays when you cannot find a value.",
       "Set null for any scalar field you cannot determine.",
       "Raw message:", "\x22\x22\x22", messageText, "\x22\x22\x22"])

/-- The slice of a candidate listing that the worker identity and provenance
logic reads.  The remaining content blocks produced by `normalizeListing`
(status, deal, property, address, …) are carried opaquely by
`PropertyListingDocument.draft` below; no claim depends on their fields. -/
structure Draft where
  listing_id : Option String
  ingest_dedupe_key : Option String
  ingest_first_seen_at : Option Int
deriving DecidableEq, Repr

/-- What the code reads off one `openai.chat.completions.create` response. -/
structure ChatCompletionReply where
  content : Option String
  promptTokens : Nat
  completionTokens : Nat
  totalTokens : Nat

structure ParserResult where
  listings : List Draft
  promptTokens : Nat
  completionTokens : Nat
  totalTokens : Nat
  truncated : Bool
  rawResponse : String
  /-- Specification-only observation: the user prompt submitted to the model,
  `none` when no call was made. -/
  sentPrompt : Option String

/-- `extractListingsFromMessage` (property-search.ts:768).  `complete` stands
for the external chat-completion call; `parseModel` stands for `JSON.parse`
plus the per-field coercion of `normalizeListing` (an error is a thrown
`JSON.parse`).  Empty sanitized content short-circuits with zero usage; an
empty model reply is a hard failure. -/
def extractListingsFromMessage (complete : String → ChatCompletionReply)
    (parseModel : String → Except String (List Draft))
    (messageText : String) (messageId : String) (maxListings : Option Nat) :
    Except String ParserResult :=
  let s := sanitizeMessage messageText
  if s.content = "" then
    .ok ⟨[], 0, 0, 0, s.truncated, "", none⟩
  else
    let prompt := buildUserPrompt s.content messageId maxListings
    let reply := complete prompt
    match reply.content with
    | none => .error "Parser returned empty response"
    | some raw =>
      if raw = "" then .error "Parser returned empty response"
      else
        match parseModel raw with
        | .error e => .error e
        | .ok listings =>
          .ok ⟨listings, reply.promptTokens, reply.completionTokens,
            reply.totalTokens, s.truncated, raw, some prompt⟩

/-! ## Listing identity and upsert (whatsapp-worker.ts) -/

/-- `generateUuid` (utils/ids.ts): `return uuidv4()` — a single draw from the
external `uuid` library's random v4 generator.  Like the model call and the
HMAC, that external draw is an explicit argument here: every function that
would call `generateUuid()` takes the drawn value as a `fresh` parameter, so
theorems quantify over it. -/
def generateUuid (uuidv4 : String) : String := uuidv4

/-- Characters the identifier sanitizer keeps: `[a-z0-9_\-:.]`. -/
def allowedIdChar (c : Char) : Bool :=
  ('a' ≤ c && c ≤ 'z') || ('0' ≤ c && c ≤ '9') ||
    c == '_' || c == '-' || c == ':' || c == '.'

/-- The `/_+/g → '_'` replacement: collapses each maximal run of underscores
to a single underscore. -/
def collapseUnderscores : List Char → List Char
  | [] => []
  | c :: rest =>
    let tail := collapseUnderscores rest
    if c == '_' then
      match tail with
      | '_' :: t => '_' :: t
      | t => '_' :: t
    else c :: tail

/-- `sanitizeIdentifier` (whatsapp-worker.ts:91): falsy values fall back; a
present value is trimmed, lowercased, has disallowed characters replaced by
underscores, underscore runs collapsed and is cut to 120 characters; results
of length at most 3 also fall back. -/
def sanitizeIdentifier (value : Option String) (fallback : String) : String :=
  match value with
  | none => fallback
  | some v =>
    if v = "" then fallback
    else
      let safe := String.mk
        ((collapseUnderscores
          (((jsTrim v).data.map Char.toLower).map
            (fun c => if allowedIdChar c then c else '_'))).take 120)
      if safe.length > 3 then safe else fallback

/-- The message key both identity builders derive:
`message.ingest.message_id ?? (_id instanceof ObjectId ? hex : generateUuid())`. -/
def messageKeyOf (m : IncomingMessageDocument) (fresh : String) : String :=
  match m.ingest.message_id with
  | some k => k
  | none => if m.idIsObjectId then m.idHex else generateUuid fresh

/-- `buildListingId` (whatsapp-worker.ts:104): the sanitized model-proposed
`listing_id` when usable, otherwise `listing_<messageKey>_<index+1>`. -/
def buildListingId (m : IncomingMessageDocument) (index : Nat)
    (proposed : Option String) (fresh : String) : String :=
  sanitizeIdentifier proposed
    ("listing_" ++ messageKeyOf m fresh ++ "_" ++ toString (index + 1))

/-- `buildDedupeKey` (whatsapp-worker.ts:112): a truthy proposed key is kept
verbatim, otherwise `whatsapp:<messageKey>:<index+1>`. -/
def buildDedupeKey (m : IncomingMessageDocument) (index : Nat)
    (proposed : Option String) (fresh : String) : String :=
  match proposed with
  | some p =>
    if p ≠ "" then p
    else "whatsapp:" ++ messageKeyOf m fresh ++ ":" ++ toString (index + 1)
  | none => "whatsapp:" ++ messageKeyOf m fresh ++ ":" ++ toString (index + 1)

/-- One document of the `properties` collection, reduced to the fields the
claims are about.  `draft` carries the normalized content blocks (status,
deal, property, address, building, units, …) opaquely, as produced by
`normalizeListingDocument`. -/
structure PropertyListingDocument where
  docId : String
  dedupe_key : String
  draft : Draft
  linked_message_ids : List String
  first_seen_at : Int
  last_seen_at : Int
  created_at : Int
  updated_at : Int
deriving DecidableEq, Repr

/-- `normalizeListingDocument` (whatsapp-worker.ts:165), restricted to the
identity, provenance and timestamp fields (the defaulted content blocks ride
along inside `draft`).  `fresh1`/`fresh2` are the uuids the two identity
builders would draw. -/
def normalizeListingDocument (m : IncomingMessageDocument) (index : Nat)
    (draft : Draft) (now : Int) (fresh1 fresh2 : String) :
    PropertyListingDocument :=
  { docId := buildListingId m index draft.listing_id fresh1
    dedupe_key := buildDedupeKey m index draft.ingest_dedupe_key fresh2
    draft := draft
    linked_message_ids := if m.idIsObjectId then [m.idHex] else []
    first_seen_at := draft.ingest_first_seen_at.getD m.ingest.first_seen_at
    last_seen_at := now
    created_at := now
    updated_at := now }

/-- The single property upsert of `upsertListings` (whatsapp-worker.ts:285):
keyed by `_id`; on a match `$set` replaces every content field and refreshes
`last_seen_at`/`updated_at` while `$setOnInsert` leaves `created_at` alone and
`$addToSet` extends the provenance set; on a miss the document is inserted.
Returns whether an insert happened (`upsertedCount`). -/
def upsertPropertyOne (store : List PropertyListingDocument)
    (doc : PropertyListingDocument) (now : Int) (addLink : Option String) :
    List PropertyListingDocument × Bool :=
  match store with
  | [] =>
    ([{ doc with
        last_seen_at := now
        updated_at := now
        created_at := now
        linked_message_ids := match addLink with | some l => [l] | none => [] }],
      true)
  | p :: rest =>
    if p.docId = doc.docId then
      ({ doc with
          last_seen_at := now
          updated_at := now
          created_at := p.created_at
          linked_message_ids :=
            match addLink with
            | some l =>
              if l ∈ p.linked_message_ids then p.linked_message_ids
              else p.linked_message_ids ++ [l]
            | none => p.linked_message_ids } :: rest, false)
    else
      let r := upsertPropertyOne rest doc now addLink
      (p :: r.1, r.2)

/-- `upsertListings` (whatsapp-worker.ts:273): iterates the candidate drafts
with their ordinal, upserting each normalized document and counting creates
and updates.  (`modifiedCount` is counted as every match here; a match whose
`$set` is a no-op would not count in Mongo, which no claim depends on.) -/
def upsertListingsFrom (m : IncomingMessageDocument) (now : Int)
    (fresh1 fresh2 : String) :
    Nat → List Draft → List PropertyListingDocument →
    List PropertyListingDocument × Nat × Nat
  | _, [], store => (store, 0, 0)
  | index, draft :: rest, store =>
    let doc := normalizeListingDocument m index draft now fresh1 fresh2
    let step :=
      upsertPropertyOne store doc now (if m.idIsObjectId then some m.idHex else none)
    let r := upsertListingsFrom m now fresh1 fresh2 (index + 1) rest step.1
    if step.2 then (r.1, r.2.1 + 1, r.2.2) else (r.1, r.2.1, r.2.2 + 1)

def upsertListings (m : IncomingMessageDocument) (drafts : List Draft)
    (store : List PropertyListingDocument) (now : Int) (fresh1 fresh2 : String) :
    List PropertyListingDocument × Nat × Nat :=
  upsertListingsFrom m now fresh1 fresh2 0 drafts store

/-! ## Worker orchestration (whatsapp-worker.ts) -/

/-- Outcome of one call to the extraction client for one message: either a
parser result (candidate drafts plus usage) or a thrown error.  The oracle
abstracts `extractListingsFromMessage` including its external model call. -/
inductive ExtractOutcome where
  | success (listings : List Draft)
      (promptTokens completionTokens totalTokens : Nat)
  | failure (message : String)

/-- `!message.message?.text`: the text is usable when present and non-empty. -/
def hasUsableText (m : IncomingMessageDocument) : Bool :=
  match m.text with
  | some t => t ≠ ""
  | none => false

/-- What `processSingleMessage` leaves behind for one claimed message. -/
structure SingleOutcome where
  doc : IncomingMessageDocument
  extractCalled : Bool
  listingsCreated : Nat
  listingsUpdated : Nat
  promptTokens : Nat
  completionTokens : Nat
  totalTokens : Nat
  skipped : Bool
  threw : Option String
deriving Repr

/-- `processSingleMessage` (whatsapp-worker.ts:405).  A message without usable
text is marked processed at once with zero listings and zero usage, without
calling the extraction client.  Otherwise the oracle is consulted: zero
candidates also mark processed (skipped), candidates are upserted and the
message marked processed, and a thrown extraction error marks the message
failed and rethrows (`threw`). -/
def processSingleMessage (oracle : IncomingMessageDocument → ExtractOutcome)
    (m : IncomingMessageDocument) (batchId : String) (maxAttempts : Nat)
    (store : List PropertyListingDocument) (now : Int) (fresh1 fresh2 : String) :
    SingleOutcome × List PropertyListingDocument :=
  if !hasUsableText m then
    (⟨markMessageProcessed m batchId now, false, 0, 0, 0, 0, 0, true, none⟩, store)
  else
    match oracle m with
    | .failure e =>
      (⟨markMessageFailed m batchId e maxAttempts now,
        true, 0, 0, 0, 0, 0, false, some e⟩, store)
    | .success listings pt ct tt =>
      if listings.isEmpty then
        (⟨markMessageProcessed m batchId now, true, 0, 0, pt, ct, tt, true, none⟩,
          store)
      else
        let r := upsertListings m listings store now fresh1 fresh2
        (⟨markMessageProcessed m batchId now,
          true, r.2.1, r.2.2, pt, ct, tt, false, none⟩, r.1)

/-- The final message record `processSingleMessage` writes, as a function of
the message and its own extraction outcome alone. -/
def singleFinalDoc (oracle : IncomingMessageDocument → ExtractOutcome)
    (m : IncomingMessageDocument) (batchId : String) (maxAttempts : Nat)
    (now : Int) : IncomingMessageDocument :=
  if !hasUsableText m then markMessageProcessed m batchId now
  else
    match oracle m with
    | .failure e => markMessageFailed m batchId e maxAttempts now
    | .success _ _ _ _ => markMessageProcessed m batchId now

/-- Whether processing this message throws (is counted as failed). -/
def singleThrew (oracle : IncomingMessageDocument → ExtractOutcome)
    (m : IncomingMessageDocument) : Bool :=
  hasUsableText m &&
    match oracle m with
    | .failure _ => true
    | .success _ _ _ _ => false

/-- Whether this message counts as skipped: no usable text, or a successful
extraction with zero candidate listings. -/
def singleSkipped (oracle : IncomingMessageDocument → ExtractOutcome)
    (m : IncomingMessageDocument) : Bool :=
  !hasUsableText m ||
    match oracle m with
    | .success listings _ _ _ => listings.isEmpty
    | .failure _ => false

structure BatchCounters where
  processed : Nat
  failed : Nat
  skipped : Nat
  listingsCreated : Nat
  listingsUpdated : Nat
  promptTokens : Nat
  completionTokens : Nat
  totalTokens : Nat
deriving DecidableEq, Repr

def BatchCounters.zero : BatchCounters := ⟨0, 0, 0, 0, 0, 0, 0, 0⟩

/-- How the batch loop (whatsapp-worker.ts:527) folds one message outcome into
the counters: a throw increments only `failed`; otherwise `processed`, the
listing counts and the token totals accumulate, and `skipped` when flagged. -/
def bumpCounters (o : SingleOutcome) (c : BatchCounters) : BatchCounters :=
  match o.threw with
  | some _ => { c with failed := c.failed + 1 }
  | none =>
    { c with
      processed := c.processed + 1
      skipped := c.skipped + (if o.skipped then 1 else 0)
      listingsCreated := c.listingsCreated + o.listingsCreated
      listingsUpdated := c.listingsUpdated + o.listingsUpdated
      promptTokens := c.promptTokens + o.promptTokens
      completionTokens := c.completionTokens + o.completionTokens
      totalTokens := c.totalTokens + o.totalTokens }

/-- `updateOne({_id: …})` write-back of a message record: replaces the first
document with the same `_id`. -/
def replaceById (d : IncomingMessageDocument) :
    List IncomingMessageDocument → List IncomingMessageDocument
  | [] => []
  | x :: rest =>
    if x.idHex = d.idHex then d :: rest else x :: replaceById d rest

/-- The per-message loop of `processPendingWhatsAppMessages`
(whatsapp-worker.ts:527): strictly sequential; each claimed message is handled
inside its own try, so a throw only bumps `failed` and the loop continues.
Returns the per-message record outcomes in batch order, the counters and the
final state of both collections. -/
def runClaimedBatch (oracle : IncomingMessageDocument → ExtractOutcome)
    (batchId : String) (maxAttempts : Nat) (now : Int) (fresh1 fresh2 : String) :
    List IncomingMessageDocument → List IncomingMessageDocument →
    List PropertyListingDocument →
    List IncomingMessageDocument × BatchCounters ×
      List IncomingMessageDocument × List PropertyListingDocument
  | [], msgStore, listingStore => ([], .zero, msgStore, listingStore)
  | m :: rest, msgStore, listingStore =>
    let po :=
      processSingleMessage oracle m batchId maxAttempts listingStore now fresh1 fresh2
    let r :=
      runClaimedBatch oracle batchId maxAttempts now fresh1 fresh2
        rest (replaceById po.1.doc msgStore) po.2
    (po.1.doc :: r.1, bumpCounters po.1 r.2.1, r.2.2.1, r.2.2.2)

structure WorkerResult where
  batchId : String
  claimed : Nat
  processed : Nat
  failed : Nat
  skipped : Nat
  listingsCreated : Nat
  listingsUpdated : Nat
  promptTokens : Nat
  completionTokens : Nat
  totalTokens : Nat
  remainingPending : Nat
deriving DecidableEq, Repr

def countPending (store : List IncomingMessageDocument) : Nat :=
  store.countP (fun m => m.processing.status == .pending)

/-- `processPendingWhatsAppMessages` (whatsapp-worker.ts:483): claim a batch,
return zeros when nothing was claimed, otherwise run the sequential loop and
aggregate, reporting the remaining pending count either way. -/
def processPendingWhatsAppMessages
    (oracle : IncomingMessageDocument → ExtractOutcome)
    (batchId : String) (now : Int)
    (batchSize maxAttempts : Nat) (claimTimeoutMs : Int)
    (msgStore : List IncomingMessageDocument)
    (listingStore : List PropertyListingDocument) (fresh1 fresh2 : String) :
    WorkerResult × List IncomingMessageDocument × List PropertyListingDocument :=
  let cl :=
    claimPendingMessages now batchId maxAttempts claimTimeoutMs batchSize msgStore
  if cl.1.isEmpty then
    (⟨batchId, 0, 0, 0, 0, 0, 0, 0, 0, 0, countPending cl.2⟩,
      cl.2, listingStore)
  else
    let r :=
      runClaimedBatch oracle batchId maxAttempts now fresh1 fresh2
        cl.1 cl.2 listingStore
    let c := r.2.1
    (⟨batchId, cl.1.length, c.processed, c.failed, c.skipped,
      c.listingsCreated, c.listingsUpdated, c.promptTokens, c.completionTokens,
      c.totalTokens, countPending r.2.2.1⟩, r.2.2.1, r.2.2.2)

/-! ## Helper lemmas -/

theorem claimFilterMatches_iff (now : Int) (maxAttempts : Nat) (timeoutMs : Int)
    (m : IncomingMessageDocument) :
    claimFilterMatches now maxAttempts timeoutMs m = true ↔
      (m.processing.attempts < maxAttempts ∧
        (m.processing.status = .pending ∨
          (m.processing.status = .processing ∧
            ∃ hb, m.processing.heartbeat_at = some hb ∧ hb < now - timeoutMs))) := by
  unfold claimFilterMatches
  cases h : m.processing.heartbeat_at with
  | none =>
    simp only [h, Bool.and_eq_true, Bool.or_eq_true, decide_eq_true_eq, beq_iff_eq,
      Bool.and_eq_false_iff]
    constructor
    · rintro ⟨ha, hs | ⟨hs, hfalse⟩⟩
      · exact ⟨ha, Or.inl hs⟩
      · cases hfalse
    · rintro ⟨ha, hs | ⟨hs, hb, hhb, _⟩⟩
      · exact ⟨ha, Or.inl hs⟩
      · cases hhb
  | some hb =>
    simp only [h, Bool.and_eq_true, Bool.or_eq_true, decide_eq_true_eq, beq_iff_eq]
    constructor
    · rintro ⟨ha, hs | ⟨hs, hlt⟩⟩
      · exact ⟨ha, Or.inl hs⟩
      · exact ⟨ha, Or.inr ⟨hs, hb, rfl, hlt⟩⟩
    · rintro ⟨ha, hs | ⟨hs, hb', hhb, hlt⟩⟩
      · exact ⟨ha, Or.inl hs⟩
      · cases hhb
        exact ⟨ha, Or.inr ⟨hs, hlt⟩⟩

theorem claimFilter_false_of_terminal (now : Int) (maxAttempts : Nat)
    (timeoutMs : Int) (m : IncomingMessageDocument)
    (h : m.processing.status = .processed ∨ m.processing.status = .failed) :
    claimFilterMatches now maxAttempts timeoutMs m = false := by
  rcases Bool.eq_false_or_eq_true (claimFilterMatches now maxAttempts timeoutMs m)
    with ht | hf
  · rcases (claimFilterMatches_iff now maxAttempts timeoutMs m).1 ht
      with ⟨_, hs | ⟨hs, _⟩⟩ <;> rcases h with h | h <;> rw [h] at hs <;> cases hs
  · exact hf

theorem claimOne_sound (now : Int) (batchId : String) (maxAttempts : Nat)
    (timeoutMs : Int) :
    ∀ (store : List IncomingMessageDocument) (pre : IncomingMessageDocument)
      (store' : List IncomingMessageDocument),
      claimOne now batchId maxAttempts timeoutMs store = some (pre, store') →
      claimFilterMatches now maxAttempts timeoutMs pre = true := by
  intro store
  induction store with
  | nil => intro pre store' h; simp [claimOne] at h
  | cons m rest ih =>
    intro pre store' h
    rw [claimOne] at h
    by_cases hm : claimFilterMatches now maxAttempts timeoutMs m
    · rw [if_pos hm] at h
      cases hr : claimOne now batchId maxAttempts timeoutMs rest with
      | none =>
        rw [hr] at h
        have h' : some (m, applyClaimUpdate m now batchId :: rest) =
            some (pre, store') := h
        cases h'
        exact hm
      | some br =>
        obtain ⟨b, rest'⟩ := br
        rw [hr] at h
        have h' : (if b.ingest.first_seen_at < m.ingest.first_seen_at then
              some (b, m :: rest')
            else some (m, applyClaimUpdate m now batchId :: rest)) =
            some (pre, store') := h
        by_cases hlt : b.ingest.first_seen_at < m.ingest.first_seen_at
        · rw [if_pos hlt] at h'
          cases h'
          exact ih _ rest' hr
        · rw [if_neg hlt] at h'
          cases h'
          exact hm
    · rw [if_neg hm] at h
      cases hr : claimOne now batchId maxAttempts timeoutMs rest with
      | none =>
        rw [hr] at h
        exact absurd h (by intro hcontra; cases hcontra)
      | some br =>
        obtain ⟨b, rest'⟩ := br
        rw [hr] at h
        have h' : some (b, m :: rest') = some (pre, store') := h
        cases h'
        exact ih _ rest' hr

theorem claimPending_mem (now : Int) (batchId : String) (maxAttempts : Nat)
    (timeoutMs : Int) :
    ∀ (fuel : Nat) (store : List IncomingMessageDocument)
      (d : IncomingMessageDocument),
      d ∈ (claimPendingMessages now batchId maxAttempts timeoutMs fuel store).1 →
      ∃ pre, claimFilterMatches now maxAttempts timeoutMs pre = true ∧
        d = applyClaimUpdate pre now batchId := by
  intro fuel
  induction fuel with
  | zero => intro store d hd; simp [claimPendingMessages] at hd
  | succ n ih =>
    intro store d hd
    rw [claimPendingMessages] at hd
    cases hc : claimOne now batchId maxAttempts timeoutMs store with
    | none => rw [hc] at hd; simp at hd
    | some pr =>
      obtain ⟨pre, store'⟩ := pr
      rw [hc] at hd
      have hd' : d ∈ applyClaimUpdate pre now batchId ::
          (claimPendingMessages now batchId maxAttempts timeoutMs n store').1 := hd
      rcases List.mem_cons.1 hd' with h1 | h2
      · exact ⟨pre, claimOne_sound now batchId maxAttempts timeoutMs store pre store' hc, h1⟩
      · exact ih store' d h2

/-! ## Claim theorems -/

/-- C1: the claim query selects a message exactly when
`attempts < maxAttempts` and (`status = pending`, or `status = processing`
with `heartbeatAt` older than `now - claimTimeout`); consequently a
`processed` or `failed` message never matches the filter and is never
selected by any claim run. -/
theorem claim_query_eligibility :
    (∀ (now : Int) (maxAttempts : Nat) (timeoutMs : Int)
      (m : IncomingMessageDocument),
      (claimFilterMatches now maxAttempts timeoutMs m = true ↔
        (m.processing.attempts < maxAttempts ∧
          (m.processing.status = .pending ∨
            (m.processing.status = .processing ∧
              ∃ hb, m.processing.heartbeat_at = some hb ∧ hb < now - timeoutMs)))) ∧
      ((m.processing.status = .processed ∨ m.processing.status = .failed) →
        claimFilterMatches now maxAttempts timeoutMs m = false)) ∧
    (∀ (now : Int) (batchId : String) (maxAttempts : Nat) (timeoutMs : Int)
      (fuel : Nat) (store : List IncomingMessageDocument)
      (d : IncomingMessageDocument),
      d ∈ (claimPendingMessages now batchId maxAttempts timeoutMs fuel store).1 →
      ∃ pre, claimFilterMatches now maxAttempts timeoutMs pre = true ∧
        pre.processing.status ≠ .processed ∧ pre.processing.status ≠ .failed ∧
        d = applyClaimUpdate pre now batchId) := by
  constructor
  · intro now maxAttempts timeoutMs m
    exact ⟨claimFilterMatches_iff now maxAttempts timeoutMs m,
      claimFilter_false_of_terminal now maxAttempts timeoutMs m⟩
  · intro now batchId maxAttempts timeoutMs fuel store d hd
    obtain ⟨pre, hfilter, hda⟩ :=
      claimPending_mem now batchId maxAttempts timeoutMs fuel store d hd
    have hstatus := (claimFilterMatches_iff now maxAttempts timeoutMs pre).1 hfilter
    refine ⟨pre, hfilter, ?_, ?_, hda⟩
    · rcases hstatus.2 with hs | ⟨hs, _⟩ <;> rw [hs] <;> intro hcontra <;> cases hcontra
    · rcases hstatus.2 with hs | ⟨hs, _⟩ <;> rw [hs] <;> intro hcontra <;> cases hcontra

/-- C1 witness: a store holding one pending message with zero attempts is
claimed, and the claimed document comes from an eligible, non-terminal
pre-state. -/
theorem claim_query_eligibility_witness :
    ∃ pre, claimFilterMatches 1000 3 300 pre = true ∧
      pre.processing.status ≠ .processed ∧ pre.processing.status ≠ .failed ∧
      applyClaimUpdate
        ⟨"a1", true, ⟨some "w1", none, some "w1", some "w1", 0, 1, 1⟩, some "hello",
          ⟨.pending, 0, none, none, none, none, none, none, none⟩, 1, 1⟩ 1000 "b1" =
        applyClaimUpdate pre 1000 "b1" :=
  (claim_query_eligibility.2 1000 "b1" 3 300 1
    [⟨"a1", true, ⟨some "w1", none, some "w1", some "w1", 0, 1, 1⟩, some "hello",
      ⟨.pending, 0, none, none, none, none, none, none, none⟩, 1, 1⟩]
    (applyClaimUpdate
      ⟨"a1", true, ⟨some "w1", none, some "w1", some "w1", 0, 1, 1⟩, some "hello",
        ⟨.pending, 0, none, none, none, none, none, none, none⟩, 1, 1⟩ 1000 "b1")
    (by decide))

/-- C2: after a processing failure, a message whose (already incremented)
attempt count is still below `maxAttempts` reverts to `pending` with claim and
heartbeat cleared and the error text recorded; otherwise it becomes `failed`,
and a failed record matches no claim query for any parameters. -/
theorem failure_retry_or_terminal :
    ∀ (m : IncomingMessageDocument) (batchId errText : String)
      (maxAttempts : Nat) (now : Int),
      ((markMessageFailed m batchId errText maxAttempts now).processing.last_error =
        some errText) ∧
      (m.processing.attempts < maxAttempts →
        (markMessageFailed m batchId errText maxAttempts now).processing.status =
          .pending ∧
        (markMessageFailed m batchId errText maxAttempts now).processing.claimed_at =
          none ∧
        (markMessageFailed m batchId errText maxAttempts now).processing.heartbeat_at =
          none) ∧
      (maxAttempts ≤ m.processing.attempts →
        (markMessageFailed m batchId errText maxAttempts now).processing.status =
          .failed ∧
        ∀ (now2 : Int) (maxAttempts2 : Nat) (timeoutMs2 : Int),
          claimFilterMatches now2 maxAttempts2 timeoutMs2
            (markMessageFailed m batchId errText maxAttempts now) = false) := by
  intro m batchId errText maxAttempts now
  refine ⟨rfl, ?_, ?_⟩
  · intro hlt
    simp [markMessageFailed, hlt]
  · intro hge
    have hnot : ¬ m.processing.attempts < maxAttempts := not_lt.mpr hge
    constructor
    · simp [markMessageFailed, hnot]
    · intro now2 maxAttempts2 timeoutMs2
      apply claimFilter_false_of_terminal
      right
      simp [markMessageFailed, hnot]

/-- C2 witness: a first failure at attempts 1 of 3 reverts to pending with the
error recorded; a failure at attempts 3 of 3 becomes failed and is excluded
from a subsequent claim query. -/
theorem failure_retry_or_terminal_witness :
    ((markMessageFailed
        ⟨"a1", true, ⟨some "w1", none, some "w1", some "w1", 0, 1, 1⟩, some "hello",
          ⟨.processing, 1, some 5, some 5, none, none, some "b1", some 5, none⟩, 1, 5⟩
        "b1" "boom" 3 9).processing.status = .pending ∧
      (markMessageFailed
        ⟨"a1", true, ⟨some "w1", none, some "w1", some "w1", 0, 1, 1⟩, some "hello",
          ⟨.processing, 1, some 5, some 5, none, none, some "b1", some 5, none⟩, 1, 5⟩
        "b1" "boom" 3 9).processing.claimed_at = none ∧
      (markMessageFailed
        ⟨"a1", true, ⟨some "w1", none, some "w1", some "w1", 0, 1, 1⟩, some "hello",
          ⟨.processing, 1, some 5, some 5, none, none, some "b1", some 5, none⟩, 1, 5⟩
        "b1" "boom" 3 9).processing.heartbeat_at = none) ∧
    ((markMessageFailed
        ⟨"a2", true, ⟨some "w2", none, some "w2", some "w2", 0, 1, 1⟩, some "hello",
          ⟨.processing, 3, some 5, some 5, none, none, some "b1", some 5, none⟩, 1, 5⟩
        "b1" "boom" 3 9).processing.status = .failed ∧
      claimFilterMatches 99999 5 1
        (markMessageFailed
          ⟨"a2", true, ⟨some "w2", none, some "w2", some "w2", 0, 1, 1⟩, some "hello",
            ⟨.processing, 3, some 5, some 5, none, none, some "b1", some 5, none⟩, 1, 5⟩
          "b1" "boom" 3 9) = false) :=
  ⟨(failure_retry_or_terminal _ "b1" "boom" 3 9).2.1 (by decide),
    ⟨((failure_retry_or_terminal _ "b1" "boom" 3 9).2.2 (by decide)).1,
      ((failure_retry_or_terminal _ "b1" "boom" 3 9).2.2 (by decide)).2 99999 5 1⟩⟩

theorem string_mk_data (s : String) : String.mk s.data = s := by
  cases s
  rfl

theorem sanitizeMessage_eq (text : String) :
    sanitizeMessage text =
      ⟨String.mk ((jsTrim text).data.take MAX_MESSAGE_LENGTH),
        decide (MAX_MESSAGE_LENGTH < (jsTrim text).length)⟩ := by
  unfold sanitizeMessage
  by_cases h : text = ""
  · subst h
    rfl
  · rw [if_neg h]
    by_cases hle : (jsTrim text).length ≤ MAX_MESSAGE_LENGTH
    · simp only [if_pos hle]
      have hd : (jsTrim text).data.length ≤ MAX_MESSAGE_LENGTH := hle
      have h1 : jsTrim text = String.mk ((jsTrim text).data.take MAX_MESSAGE_LENGTH) := by
        rw [List.take_of_length_le hd, string_mk_data]
      have h2 : (false : Bool) = decide (MAX_MESSAGE_LENGTH < (jsTrim text).length) :=
        (decide_eq_false (not_lt.mpr hle)).symm
      rw [← h1, ← h2]
    · rw [if_neg hle]
      have h2 : (true : Bool) = decide (MAX_MESSAGE_LENGTH < (jsTrim text).length) :=
        (decide_eq_true (not_le.mp hle)).symm
      rw [← h2]

/-- C8: the extraction client trims the input and hard-truncates it to at most
2,400 characters; the `truncated` flag is true exactly when the trimmed text
exceeded that length; and the prompt actually submitted to the model is built
from the sanitized content, with the flag propagated into the returned
result. -/
theorem extraction_input_truncation :
    ∀ (text : String),
      ((sanitizeMessage text).content =
        String.mk ((jsTrim text).data.take MAX_MESSAGE_LENGTH)) ∧
      ((sanitizeMessage text).truncated = true ↔
        MAX_MESSAGE_LENGTH < (jsTrim text).length) ∧
      (∀ (complete : String → ChatCompletionReply)
        (parseModel : String → Except String (List Draft))
        (messageId : String) (maxListings : Option Nat) (r : ParserResult),
        extractListingsFromMessage complete parseModel text messageId maxListings =
          .ok r →
        r.truncated = (sanitizeMessage text).truncated ∧
        r.sentPrompt = (if (sanitizeMessage text).content = "" then none
          else some (buildUserPrompt (sanitizeMessage text).content messageId
            maxListings))) := by
  intro text
  refine ⟨?_, ?_, ?_⟩
  · rw [sanitizeMessage_eq]
  · rw [sanitizeMessage_eq]
    exact decide_eq_true_iff
  · intro complete parseModel messageId maxListings r h
    simp only [extractListingsFromMessage] at h
    split at h
    · rename_i hc
      cases h
      exact ⟨rfl, by rw [if_pos hc]⟩
    · rename_i hc
      split at h
      · cases h
      · split at h
        · cases h
        · split at h
          · cases h
          · cases h
            exact ⟨rfl, by rw [if_neg hc]⟩

/-- C8 witness: a short message is passed through untrimmed with the flag
false, and a successful extraction run reports that flag and the prompt built
from the sanitized content. -/
theorem extraction_input_truncation_witness :
    ((sanitizeMessage " hi ").content =
      String.mk ((jsTrim " hi ").data.take MAX_MESSAGE_LENGTH)) ∧
    ((⟨[], 1, 2, 3, false, "x",
        some (buildUserPrompt "hi" "m1" (some 6))⟩ : ParserResult).truncated =
      (sanitizeMessage " hi ").truncated ∧
      (⟨[], 1, 2, 3, false, "x",
        some (buildUserPrompt "hi" "m1" (some 6))⟩ : ParserResult).sentPrompt =
        (if (sanitizeMessage " hi ").content = "" then none
          else some (buildUserPrompt (sanitizeMessage " hi ").content "m1"
            (some 6)))) :=
  ⟨(extraction_input_truncation " hi ").1,
    (extraction_input_truncation " hi ").2.2
      (fun _ => ⟨some "x", 1, 2, 3⟩) (fun _ => .ok []) "m1" (some 6)
      ⟨[], 1, 2, 3, false, "x", some (buildUserPrompt "hi" "m1" (some 6))⟩ rfl⟩

/-- C9: a claimed message whose stored text is absent or empty is marked
processed immediately with zero listings and zero token usage, the listing
store is untouched, and the extraction client is never invoked for it. -/
theorem empty_text_marks_processed :
    ∀ (oracle : IncomingMessageDocument → ExtractOutcome)
      (m : IncomingMessageDocument) (batchId : String) (maxAttempts : Nat)
      (store : List PropertyListingDocument) (now : Int) (fresh1 fresh2 : String),
      hasUsableText m = false →
      processSingleMessage oracle m batchId maxAttempts store now fresh1 fresh2 =
        (⟨markMessageProcessed m batchId now, false, 0, 0, 0, 0, 0, true, none⟩,
          store) ∧
      (markMessageProcessed m batchId now).processing.status = .processed := by
  intro oracle m batchId maxAttempts store now fresh1 fresh2 h
  constructor
  · unfold processSingleMessage
    rw [h]
    rfl
  · rfl

/-- A claimed message whose `message.text` is absent, for the C9 witness. -/
def msgNoText : IncomingMessageDocument :=
  ⟨"a9", true, ⟨some "w9", none, some "w9", some "w9", 0, 1, 1⟩, none,
    ⟨.processing, 1, some 5, some 5, none, none, some "b1", some 5, none⟩, 1, 5⟩

/-- C9 witness: a concrete claimed message without text is marked processed
with zeros and without an extraction call, even under an oracle that would
fail. -/
theorem empty_text_marks_processed_witness :
    processSingleMessage (fun _ => .failure "nope") msgNoText "b1" 3 [] 7 "u1" "u2" =
      (⟨markMessageProcessed msgNoText "b1" 7, false, 0, 0, 0, 0, 0, true, none⟩,
        []) ∧
    (markMessageProcessed msgNoText "b1" 7).processing.status = .processed :=
  empty_text_marks_processed (fun _ => .failure "nope") msgNoText "b1" 3 [] 7
    "u1" "u2" rfl

theorem processSingle_components
    (oracle : IncomingMessageDocument → ExtractOutcome)
    (m : IncomingMessageDocument) (batchId : String) (maxAttempts : Nat)
    (store : List PropertyListingDocument) (now : Int) (fresh1 fresh2 : String) :
    (processSingleMessage oracle m batchId maxAttempts store now fresh1 fresh2).1.doc =
      singleFinalDoc oracle m batchId maxAttempts now ∧
    (processSingleMessage oracle m batchId maxAttempts store now fresh1 fresh2).1.threw.isSome =
      singleThrew oracle m ∧
    (processSingleMessage oracle m batchId maxAttempts store now fresh1 fresh2).1.skipped =
      singleSkipped oracle m := by
  unfold processSingleMessage singleFinalDoc singleThrew singleSkipped
  cases h : hasUsableText m with
  | false => simp [h]
  | true =>
    cases ho : oracle m with
    | failure e => simp [h, ho]
    | success listings pt ct tt =>
      by_cases hl : listings.isEmpty <;> simp [h, ho, hl]

theorem bumpCounters_fields (o : SingleOutcome) (c : BatchCounters) :
    (bumpCounters o c).processed = c.processed + (if o.threw.isSome then 0 else 1) ∧
    (bumpCounters o c).failed = c.failed + (if o.threw.isSome then 1 else 0) ∧
    (bumpCounters o c).skipped =
      c.skipped + (if o.threw.isSome then 0 else if o.skipped then 1 else 0) := by
  unfold bumpCounters
  cases ht : o.threw <;> simp [ht]

theorem singleSkipped_not_threw
    (oracle : IncomingMessageDocument → ExtractOutcome)
    (m : IncomingMessageDocument) (h : singleSkipped oracle m = true) :
    singleThrew oracle m = false := by
  unfold singleSkipped at h
  unfold singleThrew
  cases hu : hasUsableText m with
  | false => simp [hu]
  | true =>
    rw [hu] at h
    cases ho : oracle m with
    | failure e => rw [ho] at h; simp at h
    | success l pt ct tt => simp [ho]

theorem runClaimedBatch_spec
    (oracle : IncomingMessageDocument → ExtractOutcome)
    (batchId : String) (maxAttempts : Nat) (now : Int) (fresh1 fresh2 : String) :
    ∀ (claimed msgStore : List IncomingMessageDocument)
      (listingStore : List PropertyListingDocument),
      (runClaimedBatch oracle batchId maxAttempts now fresh1 fresh2
          claimed msgStore listingStore).1 =
        claimed.map (fun m => singleFinalDoc oracle m batchId maxAttempts now) ∧
      (runClaimedBatch oracle batchId maxAttempts now fresh1 fresh2
          claimed msgStore listingStore).2.1.processed =
        claimed.countP (fun m => !singleThrew oracle m) ∧
      (runClaimedBatch oracle batchId maxAttempts now fresh1 fresh2
          claimed msgStore listingStore).2.1.failed =
        claimed.countP (singleThrew oracle) ∧
      (runClaimedBatch oracle batchId maxAttempts now fresh1 fresh2
          claimed msgStore listingStore).2.1.skipped =
        claimed.countP (singleSkipped oracle) := by
  intro claimed
  induction claimed with
  | nil =>
    intro ms ls
    simp [runClaimedBatch, BatchCounters.zero]
  | cons m rest ih =>
    intro ms ls
    obtain ⟨hdoc, hthrew, hskip⟩ :=
      processSingle_components oracle m batchId maxAttempts ls now fresh1 fresh2
    obtain ⟨ih1, ih2, ih3, ih4⟩ := ih
      (replaceById
        (processSingleMessage oracle m batchId maxAttempts ls now fresh1 fresh2).1.doc ms)
      (processSingleMessage oracle m batchId maxAttempts ls now fresh1 fresh2).2
    obtain ⟨b1, b2, b3⟩ := bumpCounters_fields
      (processSingleMessage oracle m batchId maxAttempts ls now fresh1 fresh2).1
      (runClaimedBatch oracle batchId maxAttempts now fresh1 fresh2 rest
        (replaceById
          (processSingleMessage oracle m batchId maxAttempts ls now fresh1 fresh2).1.doc ms)
        (processSingleMessage oracle m batchId maxAttempts ls now fresh1 fresh2).2).2.1
    refine ⟨?_, ?_, ?_, ?_⟩
    · show (processSingleMessage oracle m batchId maxAttempts ls now fresh1 fresh2).1.doc ::
        (runClaimedBatch oracle batchId maxAttempts now fresh1 fresh2 rest
          (replaceById
            (processSingleMessage oracle m batchId maxAttempts ls now fresh1 fresh2).1.doc ms)
          (processSingleMessage oracle m batchId maxAttempts ls now fresh1 fresh2).2).1 = _
      rw [hdoc, List.map_cons, (ih _ _).1]
    · show (bumpCounters
        (processSingleMessage oracle m batchId maxAttempts ls now fresh1 fresh2).1
        (runClaimedBatch oracle batchId maxAttempts now fresh1 fresh2 rest
          (replaceById
            (processSingleMessage oracle m batchId maxAttempts ls now fresh1 fresh2).1.doc ms)
          (processSingleMessage oracle m batchId maxAttempts ls now fresh1 fresh2).2).2.1).processed = _
      rw [b1, ih2, hthrew, List.countP_cons]
      by_cases hst : singleThrew oracle m = true <;> simp [hst]
    · show (bumpCounters
        (processSingleMessage oracle m batchId maxAttempts ls now fresh1 fresh2).1
        (runClaimedBatch oracle batchId maxAttempts now fresh1 fresh2 rest
          (replaceById
            (processSingleMessage oracle m batchId maxAttempts ls now fresh1 fresh2).1.doc ms)
          (processSingleMessage oracle m batchId maxAttempts ls now fresh1 fresh2).2).2.1).failed = _
      rw [b2, ih3, hthrew]
      exact (List.countP_cons _ _ _).symm
    · show (bumpCounters
        (processSingleMessage oracle m batchId maxAttempts ls now fresh1 fresh2).1
        (runClaimedBatch oracle batchId maxAttempts now fresh1 fresh2 rest
          (replaceById
            (processSingleMessage oracle m batchId maxAttempts ls now fresh1 fresh2).1.doc ms)
          (processSingleMessage oracle m batchId maxAttempts ls now fresh1 fresh2).2).2.1).skipped = _
      rw [b3, ih4, hthrew, hskip, List.countP_cons]
      by_cases hst : singleThrew oracle m = true
      · have hsf : singleSkipped oracle m = false := by
          cases hss : singleSkipped oracle m
          · rfl
          · have hcontra := singleSkipped_not_threw oracle m hss
            rw [hst] at hcontra
            cases hcontra
        simp [hst, hsf]
      · simp [hst]

/-- C5: one message failing never aborts the batch or changes any other
message. The per-message record outcomes of a batch run are exactly the map of
a per-message function of each claimed message and its own extraction outcome
(so sibling failures cannot influence them, and every claimed message is still
handled), and the failure is counted once per throwing message in the `failed`
counter. -/
theorem batch_failure_isolation :
    ∀ (oracle : IncomingMessageDocument → ExtractOutcome)
      (batchId : String) (maxAttempts : Nat) (now : Int) (fresh1 fresh2 : String)
      (claimed msgStore : List IncomingMessageDocument)
      (listingStore : List PropertyListingDocument),
      (runClaimedBatch oracle batchId maxAttempts now fresh1 fresh2
          claimed msgStore listingStore).1 =
        claimed.map (fun m => singleFinalDoc oracle m batchId maxAttempts now) ∧
      (runClaimedBatch oracle batchId maxAttempts now fresh1 fresh2
          claimed msgStore listingStore).2.1.failed =
        claimed.countP (singleThrew oracle) := by
  intro oracle batchId maxAttempts now fresh1 fresh2 claimed msgStore listingStore
  obtain ⟨h1, _, h3, _⟩ :=
    runClaimedBatch_spec oracle batchId maxAttempts now fresh1 fresh2
      claimed msgStore listingStore
  exact ⟨h1, h3⟩

theorem countP_add_countP_not {α : Type} (p : α → Bool) (l : List α) :
    l.countP p + l.countP (fun a => !p a) = l.length := by
  induction l with
  | nil => rfl
  | cons a l ih =>
    rw [List.countP_cons, List.countP_cons, List.length_cons]
    cases h : p a <;> simp [h] <;> omega


/-- C10: every worker run returns counters with
`processed + failed = claimed`, and `skipped` counts a subset of the processed
messages — precisely the claimed messages with no usable text or a successful
extraction with zero listings — so processed, failed and skipped are not three
disjoint outcome classes. -/
theorem batch_counter_invariant :
    ∀ (oracle : IncomingMessageDocument → ExtractOutcome)
      (batchId : String) (now : Int) (batchSize maxAttempts : Nat)
      (claimTimeoutMs : Int) (msgStore : List IncomingMessageDocument)
      (listingStore : List PropertyListingDocument) (fresh1 fresh2 : String),
      ((processPendingWhatsAppMessages oracle batchId now batchSize maxAttempts
          claimTimeoutMs msgStore listingStore fresh1 fresh2).1.processed +
        (processPendingWhatsAppMessages oracle batchId now batchSize maxAttempts
          claimTimeoutMs msgStore listingStore fresh1 fresh2).1.failed =
        (processPendingWhatsAppMessages oracle batchId now batchSize maxAttempts
          claimTimeoutMs msgStore listingStore fresh1 fresh2).1.claimed) ∧
      ((processPendingWhatsAppMessages oracle batchId now batchSize maxAttempts
          claimTimeoutMs msgStore listingStore fresh1 fresh2).1.skipped ≤
        (processPendingWhatsAppMessages oracle batchId now batchSize maxAttempts
          claimTimeoutMs msgStore listingStore fresh1 fresh2).1.processed) ∧
      ((processPendingWhatsAppMessages oracle batchId now batchSize maxAttempts
          claimTimeoutMs msgStore listingStore fresh1 fresh2).1.skipped =
        (claimPendingMessages now batchId maxAttempts claimTimeoutMs batchSize
          msgStore).1.countP (singleSkipped oracle)) := by
  intro oracle batchId now batchSize maxAttempts claimTimeoutMs msgStore
    listingStore fresh1 fresh2
  by_cases he :
    (claimPendingMessages now batchId maxAttempts claimTimeoutMs batchSize
      msgStore).1.isEmpty
  · have hrw : processPendingWhatsAppMessages oracle batchId now batchSize
        maxAttempts claimTimeoutMs msgStore listingStore fresh1 fresh2 =
        (⟨batchId, 0, 0, 0, 0, 0, 0, 0, 0, 0,
          countPending (claimPendingMessages now batchId maxAttempts
            claimTimeoutMs batchSize msgStore).2⟩,
          (claimPendingMessages now batchId maxAttempts claimTimeoutMs batchSize
            msgStore).2, listingStore) := by
      unfold processPendingWhatsAppMessages
      rw [if_pos he]
    have hnil : (claimPendingMessages now batchId maxAttempts claimTimeoutMs
        batchSize msgStore).1 = [] := List.isEmpty_iff.1 he
    rw [hrw]
    simp [hnil]
  · have hrw : processPendingWhatsAppMessages oracle batchId now batchSize
        maxAttempts claimTimeoutMs msgStore listingStore fresh1 fresh2 =
        (⟨batchId,
          (claimPendingMessages now batchId maxAttempts claimTimeoutMs batchSize
            msgStore).1.length,
          (runClaimedBatch oracle batchId maxAttempts now fresh1 fresh2
            (claimPendingMessages now batchId maxAttempts claimTimeoutMs batchSize
              msgStore).1
            (claimPendingMessages now batchId maxAttempts claimTimeoutMs batchSize
              msgStore).2 listingStore).2.1.processed,
          (runClaimedBatch oracle batchId maxAttempts now fresh1 fresh2
            (claimPendingMessages now batchId maxAttempts claimTimeoutMs batchSize
              msgStore).1
            (claimPendingMessages now batchId maxAttempts claimTimeoutMs batchSize
              msgStore).2 listingStore).2.1.failed,
          (runClaimedBatch oracle batchId maxAttempts now fresh1 fresh2
            (claimPendingMessages now batchId maxAttempts claimTimeoutMs batchSize
              msgStore).1
            (claimPendingMessages now batchId maxAttempts claimTimeoutMs batchSize
              msgStore).2 listingStore).2.1.skipped,
          (runClaimedBatch oracle batchId maxAttempts now fresh1 fresh2
            (claimPendingMessages now batchId maxAttempts claimTimeoutMs batchSize
              msgStore).1
            (claimPendingMessages now batchId maxAttempts claimTimeoutMs batchSize
              msgStore).2 listingStore).2.1.listingsCreated,
          (runClaimedBatch oracle batchId maxAttempts now fresh1 fresh2
            (claimPendingMessages now batchId maxAttempts claimTimeoutMs batchSize
              msgStore).1
            (claimPendingMessages now batchId maxAttempts claimTimeoutMs batchSize
              msgStore).2 listingStore).2.1.listingsUpdated,
          (runClaimedBatch oracle batchId maxAttempts now fresh1 fresh2
            (claimPendingMessages now batchId maxAttempts claimTimeoutMs batchSize
              msgStore).1
            (claimPendingMessages now batchId maxAttempts claimTimeoutMs batchSize
              msgStore).2 listingStore).2.1.promptTokens,
          (runClaimedBatch oracle batchId maxAttempts now fresh1 fresh2
            (claimPendingMessages now batchId maxAttempts claimTimeoutMs batchSize
              msgStore).1
            (claimPendingMessages now batchId maxAttempts claimTimeoutMs batchSize
              msgStore).2 listingStore).2.1.completionTokens,
          (runClaimedBatch oracle batchId maxAttempts now fresh1 fresh2
            (claimPendingMessages now batchId maxAttempts claimTimeoutMs batchSize
              msgStore).1
            (claimPendingMessages now batchId maxAttempts claimTimeoutMs batchSize
              msgStore).2 listingStore).2.1.totalTokens,
          countPending
            (runClaimedBatch oracle batchId maxAttempts now fresh1 fresh2
              (claimPendingMessages now batchId maxAttempts claimTimeoutMs
                batchSize msgStore).1
              (claimPendingMessages now batchId maxAttempts claimTimeoutMs
                batchSize msgStore).2 listingStore).2.2.1⟩,
          (runClaimedBatch oracle batchId maxAttempts now fresh1 fresh2
            (claimPendingMessages now batchId maxAttempts claimTimeoutMs batchSize
              msgStore).1
            (claimPendingMessages now batchId maxAttempts claimTimeoutMs batchSize
              msgStore).2 listingStore).2.2.1,
          (runClaimedBatch oracle batchId maxAttempts now fresh1 fresh2
            (claimPendingMessages now batchId maxAttempts claimTimeoutMs batchSize
              msgStore).1
            (claimPendingMessages now batchId maxAttempts claimTimeoutMs batchSize
              msgStore).2 listingStore).2.2.2) := by
      unfold processPendingWhatsAppMessages
      rw [if_neg he]
    obtain ⟨_, h2, h3, h4⟩ :=
      runClaimedBatch_spec oracle batchId maxAttempts now fresh1 fresh2
        (claimPendingMessages now batchId maxAttempts claimTimeoutMs batchSize
          msgStore).1
        (claimPendingMessages now batchId maxAttempts claimTimeoutMs batchSize
          msgStore).2
        listingStore
    rw [hrw]
    refine ⟨?_, ?_, ?_⟩
    · show (runClaimedBatch oracle batchId maxAttempts now fresh1 fresh2
          (claimPendingMessages now batchId maxAttempts claimTimeoutMs batchSize
            msgStore).1
          (claimPendingMessages now batchId maxAttempts claimTimeoutMs batchSize
            msgStore).2 listingStore).2.1.processed +
        (runClaimedBatch oracle batchId maxAttempts now fresh1 fresh2
          (claimPendingMessages now batchId maxAttempts claimTimeoutMs batchSize
            msgStore).1
          (claimPendingMessages now batchId maxAttempts claimTimeoutMs batchSize
            msgStore).2 listingStore).2.1.failed =
        (claimPendingMessages now batchId maxAttempts claimTimeoutMs batchSize
          msgStore).1.length
      rw [h2, h3, Nat.add_comm]
      exact countP_add_countP_not (singleThrew oracle) _
    · show (runClaimedBatch oracle batchId maxAttempts now fresh1 fresh2
          (claimPendingMessages now batchId maxAttempts claimTimeoutMs batchSize
            msgStore).1
          (claimPendingMessages now batchId maxAttempts claimTimeoutMs batchSize
            msgStore).2 listingStore).2.1.skipped ≤
        (runClaimedBatch oracle batchId maxAttempts now fresh1 fresh2
          (claimPendingMessages now batchId maxAttempts claimTimeoutMs batchSize
            msgStore).1
          (claimPendingMessages now batchId maxAttempts claimTimeoutMs batchSize
            msgStore).2 listingStore).2.1.processed
      rw [h4, h2]
      exact List.countP_mono_left (fun m _ hs => by
        rw [singleSkipped_not_threw oracle m hs]; rfl)
    · exact h4

/-! ## Listing identity lemmas (C4) -/

def listingIds (store : List PropertyListingDocument) : List String :=
  store.map PropertyListingDocument.docId

/-- Boolean membership in an id list. -/
def idMem (i : String) : List String → Bool
  | [] => false
  | x :: rest => x == i || idMem i rest

theorem idMem_append (i : String) :
    ∀ a b : List String, idMem i (a ++ b) = (idMem i a || idMem i b) := by
  intro a b
  induction a with
  | nil => simp [idMem]
  | cons x rest ih => simp [idMem, ih, Bool.or_assoc]

theorem upsertPropertyOne_ids (doc : PropertyListingDocument) (now : Int)
    (addLink : Option String) :
    ∀ store : List PropertyListingDocument,
      ((upsertPropertyOne store doc now addLink).2 =
        !(idMem doc.docId (listingIds store))) ∧
      (listingIds (upsertPropertyOne store doc now addLink).1 =
        if idMem doc.docId (listingIds store) = true then listingIds store
        else listingIds store ++ [doc.docId]) := by
  intro store
  induction store with
  | nil => simp [upsertPropertyOne, listingIds, idMem]
  | cons p rest ih =>
    by_cases hp : p.docId = doc.docId
    · constructor
      · simp [upsertPropertyOne, hp, listingIds, idMem]
      · simp [upsertPropertyOne, hp, listingIds, idMem]
    · have hne : (p.docId == doc.docId) = false := beq_eq_false_iff_ne.2 hp
      have hmemc : idMem doc.docId (listingIds (p :: rest)) =
          idMem doc.docId (listingIds rest) := by
        simp [listingIds, idMem, hne]
      have hstepdef : upsertPropertyOne (p :: rest) doc now addLink =
          (p :: (upsertPropertyOne rest doc now addLink).1,
            (upsertPropertyOne rest doc now addLink).2) := by
        conv_lhs => rw [upsertPropertyOne.eq_def]
        dsimp only
        rw [if_neg hp]
      constructor
      · rw [hstepdef, ih.1, hmemc]
      · rw [hstepdef]
        show p.docId :: listingIds (upsertPropertyOne rest doc now addLink).1 =
          if idMem doc.docId (listingIds (p :: rest)) = true
          then listingIds (p :: rest)
          else listingIds (p :: rest) ++ [doc.docId]
        rw [ih.2, hmemc]
        by_cases hm : idMem doc.docId (listingIds rest) = true
        · rw [if_pos hm, if_pos hm]
          rfl
        · rw [if_neg hm, if_neg hm]
          rfl

/-- The ids the worker derives for a draft list starting at a given ordinal. -/
def listingIdsOf (m : IncomingMessageDocument) (fresh1 : String) :
    Nat → List Draft → List String
  | _, [] => []
  | index, d :: rest =>
    buildListingId m index d.listing_id fresh1 ::
      listingIdsOf m fresh1 (index + 1) rest

theorem upsertListingsFrom_cons (m : IncomingMessageDocument) (now : Int)
    (fresh1 fresh2 : String) (index : Nat) (d : Draft) (rest : List Draft)
    (store : List PropertyListingDocument) :
    (upsertListingsFrom m now fresh1 fresh2 index (d :: rest) store).1 =
      (upsertListingsFrom m now fresh1 fresh2 (index + 1) rest
        (upsertPropertyOne store (normalizeListingDocument m index d now fresh1 fresh2)
          now (if m.idIsObjectId then some m.idHex else none)).1).1 ∧
    (upsertListingsFrom m now fresh1 fresh2 index (d :: rest) store).2.1 =
      (upsertListingsFrom m now fresh1 fresh2 (index + 1) rest
        (upsertPropertyOne store (normalizeListingDocument m index d now fresh1 fresh2)
          now (if m.idIsObjectId then some m.idHex else none)).1).2.1 +
      (if (upsertPropertyOne store (normalizeListingDocument m index d now fresh1 fresh2)
          now (if m.idIsObjectId then some m.idHex else none)).2 then 1 else 0) := by
  set doc := normalizeListingDocument m index d now fresh1 fresh2 with hdocdef
  set link := (if m.idIsObjectId then some m.idHex else none) with hlinkdef
  set step := upsertPropertyOne store doc now link with hstepdef
  set r := upsertListingsFrom m now fresh1 fresh2 (index + 1) rest step.1 with hrdef
  have huf : upsertListingsFrom m now fresh1 fresh2 index (d :: rest) store =
      (if step.2 then (r.1, r.2.1 + 1, r.2.2) else (r.1, r.2.1, r.2.2 + 1)) := rfl
  rw [huf]
  cases hb : step.2 <;> simp

theorem upsertFrom_ids_ext (m : IncomingMessageDocument) (now : Int)
    (fresh1 fresh2 : String) :
    ∀ (drafts : List Draft) (index : Nat) (store : List PropertyListingDocument),
      ∃ ext, listingIds (upsertListingsFrom m now fresh1 fresh2 index drafts store).1 =
        listingIds store ++ ext := by
  intro drafts
  induction drafts with
  | nil => intro index store; exact ⟨[], by simp [upsertListingsFrom]⟩
  | cons d rest ih =>
    intro index store
    obtain ⟨ext1, hext1⟩ := ih (index + 1)
      (upsertPropertyOne store (normalizeListingDocument m index d now fresh1 fresh2)
        now (if m.idIsObjectId then some m.idHex else none)).1
    rw [(upsertListingsFrom_cons m now fresh1 fresh2 index d rest store).1, hext1,
      (upsertPropertyOne_ids (normalizeListingDocument m index d now fresh1 fresh2)
        now (if m.idIsObjectId then some m.idHex else none) store).2]
    by_cases hm : idMem (normalizeListingDocument m index d now fresh1 fresh2).docId
        (listingIds store) = true
    · rw [if_pos hm]
      exact ⟨ext1, rfl⟩
    · rw [if_neg hm]
      exact ⟨[(normalizeListingDocument m index d now fresh1 fresh2).docId] ++ ext1,
        by rw [List.append_assoc]⟩

theorem upsertFrom_mem (m : IncomingMessageDocument) (now : Int)
    (fresh1 fresh2 : String) :
    ∀ (drafts : List Draft) (index : Nat) (store : List PropertyListingDocument)
      (i : String),
      idMem i (listingIdsOf m fresh1 index drafts) = true →
      idMem i (listingIds
        (upsertListingsFrom m now fresh1 fresh2 index drafts store).1) = true := by
  intro drafts
  induction drafts with
  | nil => intro index store i hi; simp [listingIdsOf, idMem] at hi
  | cons d rest ih =>
    intro index store i hi
    rw [(upsertListingsFrom_cons m now fresh1 fresh2 index d rest store).1]
    have hid : (normalizeListingDocument m index d now fresh1 fresh2).docId =
      buildListingId m index d.listing_id fresh1 := rfl
    simp only [listingIdsOf, idMem, Bool.or_eq_true] at hi
    rcases hi with hhead | htail
    · have hmem0 : idMem i (listingIds
          (upsertPropertyOne store
            (normalizeListingDocument m index d now fresh1 fresh2)
            now (if m.idIsObjectId then some m.idHex else none)).1) = true := by
        rw [(upsertPropertyOne_ids
          (normalizeListingDocument m index d now fresh1 fresh2)
          now (if m.idIsObjectId then some m.idHex else none) store).2]
        have hieq : (normalizeListingDocument m index d now fresh1 fresh2).docId = i := by
          rw [hid]
          exact beq_iff_eq.1 hhead
        by_cases hm : idMem
            (normalizeListingDocument m index d now fresh1 fresh2).docId
            (listingIds store) = true
        · rw [if_pos hm, ← hieq]
          exact hm
        · rw [if_neg hm, idMem_append]
          have hone : idMem i
              [(normalizeListingDocument m index d now fresh1 fresh2).docId] = true := by
            simp [idMem, hieq]
          rw [hone]
          simp
      obtain ⟨ext, hext⟩ := upsertFrom_ids_ext m now fresh1 fresh2 rest (index + 1)
        (upsertPropertyOne store
          (normalizeListingDocument m index d now fresh1 fresh2)
          now (if m.idIsObjectId then some m.idHex else none)).1
      rw [hext, idMem_append, hmem0]
      simp
    · exact ih (index + 1) _ i htail

theorem upsertFrom_no_insert (m : IncomingMessageDocument) (now : Int)
    (fresh1 fresh2 : String) :
    ∀ (drafts : List Draft) (index : Nat) (store : List PropertyListingDocument),
      (∀ i, idMem i (listingIdsOf m fresh1 index drafts) = true →
        idMem i (listingIds store) = true) →
      (upsertListingsFrom m now fresh1 fresh2 index drafts store).2.1 = 0 ∧
      listingIds (upsertListingsFrom m now fresh1 fresh2 index drafts store).1 =
        listingIds store := by
  intro drafts
  induction drafts with
  | nil => intro index store _; exact ⟨rfl, rfl⟩
  | cons d rest ih =>
    intro index store h
    have hhead : idMem (normalizeListingDocument m index d now fresh1 fresh2).docId
        (listingIds store) = true := by
      apply h
      show (buildListingId m index d.listing_id fresh1 ==
        (normalizeListingDocument m index d now fresh1 fresh2).docId || _) = true
      have hb : (buildListingId m index d.listing_id fresh1 ==
          (normalizeListingDocument m index d now fresh1 fresh2).docId) = true :=
        beq_iff_eq.2 rfl
      rw [hb]
      simp
    have hstep := upsertPropertyOne_ids
      (normalizeListingDocument m index d now fresh1 fresh2) now
      (if m.idIsObjectId then some m.idHex else none) store
    have hflag : (upsertPropertyOne store
        (normalizeListingDocument m index d now fresh1 fresh2) now
        (if m.idIsObjectId then some m.idHex else none)).2 = false := by
      rw [hstep.1, hhead]
      rfl
    have hids : listingIds (upsertPropertyOne store
        (normalizeListingDocument m index d now fresh1 fresh2) now
        (if m.idIsObjectId then some m.idHex else none)).1 = listingIds store := by
      rw [hstep.2, if_pos hhead]
    have htail := ih (index + 1)
      (upsertPropertyOne store
        (normalizeListingDocument m index d now fresh1 fresh2) now
        (if m.idIsObjectId then some m.idHex else none)).1
      (by
        intro i hi
        rw [hids]
        apply h
        show (_ || idMem i (listingIdsOf m fresh1 (index + 1) rest)) = true
        rw [hi]
        simp)
    constructor
    · rw [(upsertListingsFrom_cons m now fresh1 fresh2 index d rest store).2,
        htail.1, hflag]
      rfl
    · rw [(upsertListingsFrom_cons m now fresh1 fresh2 index d rest store).1,
        htail.2, hids]

theorem buildListingId_key (m : IncomingMessageDocument) (k : String)
    (h : m.ingest.message_id = some k) (index : Nat) (proposed : Option String)
    (fresh : String) :
    buildListingId m index proposed fresh =
      sanitizeIdentifier proposed ("listing_" ++ k ++ "_" ++ toString (index + 1)) := by
  unfold buildListingId messageKeyOf
  rw [h]

theorem listingIdsOf_key (m : IncomingMessageDocument) (k : String)
    (h : m.ingest.message_id = some k) (f g : String) :
    ∀ (drafts : List Draft) (index : Nat),
      listingIdsOf m f index drafts = listingIdsOf m g index drafts := by
  intro drafts
  induction drafts with
  | nil => intro index; rfl
  | cons d rest ih =>
    intro index
    show buildListingId m index d.listing_id f :: _ =
      buildListingId m index d.listing_id g :: _
    rw [buildListingId_key m k h index d.listing_id f,
      buildListingId_key m k h index d.listing_id g, ih (index + 1)]

/-- A stored message with source message id `wamid.keyA`. -/
def c4msgA : IncomingMessageDocument :=
  ⟨"aaaaaaaaaaaaaaaaaaaaaaaa", true,
    ⟨some "wamid.keyA", none, some "wamid.keyA", some "wamid.keyA", 0, 1, 1⟩,
    some "2 bedroom flat, Lekki",
    ⟨.processing, 1, some 5, some 5, none, none, some "b1", some 5, none⟩, 1, 5⟩

/-- A different stored message with source message id `wamid.keyB`. -/
def c4msgB : IncomingMessageDocument :=
  ⟨"bbbbbbbbbbbbbbbbbbbbbbbb", true,
    ⟨some "wamid.keyB", none, some "wamid.keyB", some "wamid.keyB", 0, 2, 2⟩,
    some "3 bedroom flat, Yaba",
    ⟨.processing, 1, some 5, some 5, none, none, some "b1", some 5, none⟩, 2, 5⟩

/-- C4 counterexample: the stored listing identity is not a function of the
source message id and the ordinal.  When the extraction output proposes a
usable `listing_id`, `buildListingId` keeps its sanitized form: two messages
with different message ids resolve to the same identity under the same
proposed id, and the same message at the same ordinal resolves to different
identities depending on the proposed id. -/
theorem listing_identity_counterexample :
    buildListingId c4msgA 0 (some "model-made-key") "u1" =
      buildListingId c4msgB 0 (some "model-made-key") "u2" ∧
    c4msgA.ingest.message_id ≠ c4msgB.ingest.message_id ∧
    buildListingId c4msgA 0 (some "model-made-key") "u1" ≠
      buildListingId c4msgA 0 none "u1" := by
  refine ⟨?_, ?_, ?_⟩
  · rfl
  · decide
  · decide

/-- C4 (amended): the stored identity is the sanitized model-proposed
`listing_id` when one is usable and otherwise `listing_<messageId>_<ordinal+1>`;
for a fixed message id it does not depend on which message record carries that
id or on the uuid fallback; and re-running the upsert with the same candidate
drafts on the same message creates no new record: the second run reports zero
creates and leaves the set of stored ids unchanged, replacing payloads in
place. -/
theorem listing_identity_amended :
    (∀ (m : IncomingMessageDocument) (k : String) (index : Nat) (fresh : String),
      m.ingest.message_id = some k →
      buildListingId m index none fresh =
        "listing_" ++ k ++ "_" ++ toString (index + 1)) ∧
    (∀ (m m' : IncomingMessageDocument) (k : String) (index : Nat)
      (proposed : Option String) (fresh fresh' : String),
      m.ingest.message_id = some k → m'.ingest.message_id = some k →
      buildListingId m index proposed fresh =
        buildListingId m' index proposed fresh') ∧
    (∀ (m : IncomingMessageDocument) (k : String) (drafts : List Draft)
      (store : List PropertyListingDocument) (now now' : Int)
      (f1 f2 g1 g2 : String),
      m.ingest.message_id = some k →
      (upsertListings m drafts
        (upsertListings m drafts store now f1 f2).1 now' g1 g2).2.1 = 0 ∧
      listingIds (upsertListings m drafts
        (upsertListings m drafts store now f1 f2).1 now' g1 g2).1 =
        listingIds (upsertListings m drafts store now f1 f2).1) := by
  refine ⟨?_, ?_, ?_⟩
  · intro m k index fresh h
    rw [buildListingId_key m k h index none fresh]
    rfl
  · intro m m' k index proposed fresh fresh' h h'
    rw [buildListingId_key m k h index proposed fresh,
      buildListingId_key m' k h' index proposed fresh']
  · intro m k drafts store now now' f1 f2 g1 g2 h
    have hkey := listingIdsOf_key m k h g1 f1 drafts 0
    exact upsertFrom_no_insert m now' g1 g2 drafts 0
      (upsertListings m drafts store now f1 f2).1
      (fun i hi =>
        upsertFrom_mem m now f1 f2 drafts 0 store i (by rwa [hkey] at hi))

/-- C4 witness: for `c4msgA` (message id `wamid.keyA`) ordinal 0 resolves to
`listing_wamid.keyA_1`, and re-upserting one draft produces zero creates the
second time with the stored id set unchanged. -/
theorem listing_identity_amended_witness :
    buildListingId c4msgA 0 none "u1" =
      "listing_" ++ "wamid.keyA" ++ "_" ++ toString (0 + 1) ∧
    ((upsertListings c4msgA [⟨none, none, none⟩]
        (upsertListings c4msgA [⟨none, none, none⟩] [] 5 "u1" "u2").1
        9 "u3" "u4").2.1 = 0 ∧
      listingIds (upsertListings c4msgA [⟨none, none, none⟩]
        (upsertListings c4msgA [⟨none, none, none⟩] [] 5 "u1" "u2").1
        9 "u3" "u4").1 =
      listingIds (upsertListings c4msgA [⟨none, none, none⟩] [] 5 "u1" "u2").1) :=
  ⟨listing_identity_amended.1 c4msgA "wamid.keyA" 0 "u1" rfl,
    listing_identity_amended.2.2 c4msgA "wamid.keyA" [⟨none, none, none⟩] []
      5 9 "u1" "u2" "u3" "u4" rfl⟩

/-- C7: a webhook POST that fails HMAC signature verification is answered 401
with the Raw Message Store untouched (the intake upsert is never reached);
with a valid signature and a successful intake, the handler answers 200 with
the `{inserted, updated, skipped}` counts. -/
theorem webhook_auth_gate :
    ∀ (hmacHex : String → String) (store : List IncomingMessageDocument)
      (rawBody signatureHeader : Option String) (body : JValue) (now : Int),
      (verifySignature hmacHex rawBody signatureHeader = false →
        handleWhatsAppWebhookPost hmacHex store rawBody signatureHeader body now =
          (store, ⟨401, none⟩)) ∧
      (verifySignature hmacHex rawBody signatureHeader = true →
        ∀ (store' : List IncomingMessageDocument) (r : PersistResult),
          storeIncomingWhatsAppMessages store body now = (store', .ok r) →
          handleWhatsAppWebhookPost hmacHex store rawBody signatureHeader body now =
            (store', ⟨200, some r⟩)) := by
  intro hmacHex store rawBody signatureHeader body now
  constructor
  · intro h
    unfold handleWhatsAppWebhookPost
    rw [h]
    rfl
  · intro h store' r hstore
    unfold handleWhatsAppWebhookPost
    rw [h, hstore]
    rfl

/-- C7 witness: a request without a signature header is rejected 401 leaving
an empty store unchanged; a correctly signed request over an empty-object body
is answered 200 with zero counts. -/
theorem webhook_auth_gate_witness :
    handleWhatsAppWebhookPost (fun _ => "ab") [] (some "x") none .jnull 3 =
      ([], ⟨401, none⟩) ∧
    handleWhatsAppWebhookPost (fun _ => "ab") [] (some "x") (some "sha256=ab")
        (.jobj []) 3 =
      ([], ⟨200, some ⟨0, 0, 0⟩⟩) :=
  ⟨(webhook_auth_gate (fun _ => "ab") [] (some "x") none .jnull 3).1 rfl,
    (webhook_auth_gate (fun _ => "ab") [] (some "x") (some "sha256=ab")
      (.jobj []) 3).2 rfl [] ⟨0, 0, 0⟩ rfl⟩

/-- C6 counterexample: a payload that does not match the webhook envelope (no
`entry` array) does not make the Intake Normalizer fail with a
`ValidationError` — it returns the ordinary zero-count result, and the parser
yields no messages. -/
theorem no_validation_error_counterexample :
    storeIncomingWhatsAppMessages []
        (.jobj [("object", .jstr "whatsapp_business_account")]) 0 =
      ([], .ok ⟨0, 0, 0⟩) ∧
    parseWebhookPayload (.jobj [("object", .jstr "whatsapp_business_account")]) =
      [] :=
  ⟨rfl, rfl⟩

/-- C6 (amended): the Intake Normalizer never raises on payload shape: a
payload without an `entry` array parses to zero messages and intake returns
`{inserted: 0, updated: 0, skipped: 0}` with the store untouched, and an
unknown extra top-level field leaves parsing unchanged (forward-compatible
parsing). -/
theorem malformed_payload_zero_counts :
    (∀ (store : List IncomingMessageDocument) (now : Int) (payload : JValue),
      (∀ xs, payload.objGet "entry" ≠ some (.jarr xs)) →
      parseWebhookPayload payload = [] ∧
      storeIncomingWhatsAppMessages store payload now = (store, .ok ⟨0, 0, 0⟩)) ∧
    (∀ (fields : List (String × JValue)) (k : String) (v : JValue),
      k ≠ "entry" →
      parseWebhookPayload (.jobj ((k, v) :: fields)) =
        parseWebhookPayload (.jobj fields)) := by
  constructor
  · intro store now payload h
    have hp : parseWebhookPayload payload = [] := by
      unfold parseWebhookPayload
      cases he : payload.objGet "entry" with
      | none => rfl
      | some v =>
        cases v with
        | jarr xs => exact absurd he (h xs)
        | jnull => rfl
        | jbool b => rfl
        | jnum n => rfl
        | jstr s => rfl
        | jobj fs => rfl
    refine ⟨hp, ?_⟩
    simp [storeIncomingWhatsAppMessages, hp]
  · intro fields k v hk
    have hl : (JValue.jobj ((k, v) :: fields)).objGet "entry" =
        (JValue.jobj fields).objGet "entry" := by
      show List.lookup "entry" ((k, v) :: fields) = List.lookup "entry" fields
      have hb : ("entry" == k) = false := beq_eq_false_iff_ne.2 (Ne.symm hk)
      simp [List.lookup, hb]
    unfold parseWebhookPayload
    rw [hl]

/-- C6 witness: the non-envelope payload `{"object": …}` parses to no messages
and stores nothing, and adding an unknown top-level field `foo` does not
change parsing. -/
theorem malformed_payload_zero_counts_witness :
    (parseWebhookPayload (.jobj [("object", .jstr "whatsapp_business_account")]) =
        [] ∧
      storeIncomingWhatsAppMessages []
          (.jobj [("object", .jstr "whatsapp_business_account")]) 3 =
        ([], .ok ⟨0, 0, 0⟩)) ∧
    parseWebhookPayload (.jobj [("foo", .jnull)]) =
      parseWebhookPayload (.jobj []) :=
  ⟨malformed_payload_zero_counts.1 [] 3
      (.jobj [("object", .jstr "whatsapp_business_account")])
      (fun xs h => by
        rw [show (JValue.jobj [("object", JValue.jstr "whatsapp_business_account")]).objGet
            "entry" = none from rfl] at h
        exact Option.noConfusion h),
    malformed_payload_zero_counts.2 [] "foo" .jnull (by decide)⟩

/-- A well-formed webhook delivery carrying one WhatsApp text message, used to
exercise the intake upsert. -/
def demoWebhookPayload : JValue :=
  .jobj [("entry", .jarr [
    .jobj [("id", .jstr "entry-1"),
      ("changes", .jarr [
        .jobj [("field", .jstr "messages"),
          ("value", .jobj [
            ("messaging_product", .jstr "whatsapp"),
            ("contacts", .jarr [
              .jobj [("profile", .jobj [("name", .jstr "Ada")]),
                ("wa_id", .jstr "2348000000001")]]),
            ("messages", .jarr [
              .jobj [("id", .jstr "wamid.demo1"),
                ("type", .jstr "text"),
                ("from", .jstr "2348000000001"),
                ("timestamp", .jstr "1700000000"),
                ("text", .jobj [("body", .jstr "2 bedroom flat, Lekki")])]])])]])]])]

/-- C3: the intake upsert is rejected by the store.  Its update document puts
`updated_at` (and the whole `ingest` object, a prefix of `ingest.last_seen_at`)
under both `$setOnInsert` and `$set`, which MongoDB refuses as conflicting
update operators, so delivering a valid one-message payload — once or twice —
stores no RawMessage at all and surfaces an error instead of the documented
insert-then-refresh behavior. -/
theorem intake_update_rejected :
    pathsConflict ["updated_at"] ["updated_at"] = true ∧
    pathsConflict ["ingest"] ["ingest", "last_seen_at"] = true ∧
    intakeUpdateHasConflict = true ∧
    (parseWebhookPayload demoWebhookPayload).length = 1 ∧
    storeIncomingWhatsAppMessages [] demoWebhookPayload 1000 =
      ([], .error "ConflictingUpdateOperators") ∧
    storeIncomingWhatsAppMessages [] demoWebhookPayload 2000 =
      ([], .error "ConflictingUpdateOperators") :=
  ⟨rfl, rfl, rfl, rfl, rfl, rfl⟩

end PropertyPipeline
